import Mathlib

/-!
Verification of the CI workflows and tutorial notebooks of this repository.

The GitHub Actions workflows (`Deploy On Release`, `Publish Website`) are
embedded as data: jobs with their `needs` edges and `if:` conditions, steps
with their conditions, and the shell fragments of the version-comparison and
version-deletion steps as functions on `List Char` (Lean's built-in `String`
primitives do not reduce in the kernel, so the shell text processing is
modelled directly on character lists).  The discrete-fidelity
knowledge-gradient tutorial notebook is embedded as pure functions over
`List ℚ` rows, with the external library's optimizers abstracted as oracle
parameters.

The file has two parts: all definitions first, then all theorems.
-/

namespace BotorchRepo

/-! # Part 1: definitions -/

/-! ## Shell string helpers shared by the workflows

A shell word is modelled as `List Char`. -/

/-- Split a character list at every `'.'` (the field structure used by
`cut -d '.'`): `"a.b.c" ↦ ["a","b","c"]`, and a string with no dot is a
single field. -/
def splitOnDot : List Char → List (List Char)
  | [] => [[]]
  | c :: cs =>
    if c = '.' then [] :: splitOnDot cs
    else
      match splitOnDot cs with
      | [] => [[c]]
      | f :: rest => (c :: f) :: rest

/-- Re-join dot-separated fields. -/
def joinDots : List (List Char) → List Char
  | [] => []
  | [f] => f
  | f :: rest => f ++ '.' :: joinDots rest

/-- Shell `cut -d '.' -f 1-2`: keep the first two dot-separated fields of a
word (a line with no delimiter is passed through whole, as `cut` does). -/
def cutFields12 (s : List Char) : List Char :=
  joinDots ((splitOnDot s).take 2)

/-- Shell `${var#v}`: remove a single leading `'v'` when present. -/
def stripLeadingV : List Char → List Char
  | 'v' :: cs => cs
  | cs => cs

/-- The reduction applied by `check-versions` to both tags: strip the patch
component (`cut -d '.' -f 1-2`), then drop an optional leading `v`. -/
def reducedTag (s : List Char) : List Char :=
  stripLeadingV (cutFields12 s)

/-! ## Deploy On Release: `check-versions` comparison step -/

/-- Observable outcome of the `compare` step of the `check-versions` job:
whether `major_minor_changed=true` was appended to `$GITHUB_OUTPUT`, and
whether the `::warning::` line was emitted. -/
structure CheckVersionsResult where
  major_minor_changed : Option (List Char)
  warned : Bool
deriving Repr, DecidableEq

/-- The `compare` step of the `check-versions` job: reduce the previous tag
and the release tag with `cut -d '.' -f 1-2` and `${var#v}`, compare with
`[[ "$prev" == "$next" ]]`; on equality emit only a warning, otherwise
write `major_minor_changed=true` to `$GITHUB_OUTPUT`. -/
def checkVersionsCompare (previousTag releaseTag : List Char) : CheckVersionsResult :=
  let prev := stripLeadingV (cutFields12 previousTag)
  let next := stripLeadingV (cutFields12 releaseTag)
  if prev = next then
    { major_minor_changed := none, warned := true }
  else
    { major_minor_changed := some ['t', 'r', 'u', 'e'], warned := false }

/-! ## Publish Website workflow (`workflow_call` inputs and steps)

The workflow takes inputs `new_version` (string, optional), `run_tutorials`
(boolean) and `dry_run` (boolean).  An absent string input is the empty
string; GitHub Actions expressions treat a string as truthy exactly when it
is non-empty. -/

/-- Inputs of the `Publish Website` workflow. -/
structure PublishWebsiteInputs where
  new_version : List Char
  run_tutorials : Bool
  dry_run : Bool

/-- GitHub Actions truthiness of a string-typed input. -/
def ghaTruthy (s : List Char) : Bool :=
  !s.isEmpty

/-- One step of the `build-website` job: its `name:`, its `if:` condition (a
step without `if:` always runs once the job runs), and whether its `run:`
script contains a `git push` to the `docusaurus-versions` branch. -/
structure WorkflowStep where
  name : String
  condition : PublishWebsiteInputs → Bool
  pushesToDocusaurusVersions : Bool

/-- Step `actions/checkout@v4` (checks out `docusaurus-versions`). -/
def checkoutVersionsStep : WorkflowStep :=
  { name := "checkout", condition := fun _ => true, pushesToDocusaurusVersions := false }

/-- Step `Install uv`. -/
def installUvStep : WorkflowStep :=
  { name := "Install uv", condition := fun _ => true, pushesToDocusaurusVersions := false }

/-- Step `Sync release branch with main`: runs `git merge origin/main` but,
per its own comment, does not push the sync commit. -/
def syncReleaseBranchStep : WorkflowStep :=
  { name := "Sync release branch with main", condition := fun _ => true,
    pushesToDocusaurusVersions := false }

/-- Step `Set up Python`. -/
def setUpPythonStep : WorkflowStep :=
  { name := "Set up Python", condition := fun _ => true, pushesToDocusaurusVersions := false }

/-- Step `Install latest GPyTorch and Linear Operator`,
`if: ${{ !inputs.new_version }}`. -/
def installLatestGpytorchStep : WorkflowStep :=
  { name := "Install latest GPyTorch and Linear Operator",
    condition := fun i => !ghaTruthy i.new_version,
    pushesToDocusaurusVersions := false }

/-- Step `Install dependencies`. -/
def installDependenciesStep : WorkflowStep :=
  { name := "Install dependencies", condition := fun _ => true,
    pushesToDocusaurusVersions := false }

/-- Step `Delete existing similar versions from Docusaurus`,
`if: ${{ inputs.new_version }}`; it edits the working tree only. -/
def deleteSimilarVersionsWorkflowStep : WorkflowStep :=
  { name := "Delete existing similar versions from Docusaurus",
    condition := fun i => ghaTruthy i.new_version,
    pushesToDocusaurusVersions := false }

/-- Step `Create new docusaurus version`,
`if: ${{ inputs.new_version && !inputs.dry_run }}`; its script runs
`git push --force origin HEAD:docusaurus-versions`. -/
def createDocusaurusVersionStep : WorkflowStep :=
  { name := "Create new docusaurus version",
    condition := fun i => ghaTruthy i.new_version && !i.dry_run,
    pushesToDocusaurusVersions := true }

/-- Step `Build website`. -/
def buildWebsiteScriptStep : WorkflowStep :=
  { name := "Build website", condition := fun _ => true,
    pushesToDocusaurusVersions := false }

/-- Step `Upload website build as artifact`. -/
def uploadArtifactStep : WorkflowStep :=
  { name := "Upload website build as artifact", condition := fun _ => true,
    pushesToDocusaurusVersions := false }

/-- The steps of the `build-website` job, in workflow order. -/
def buildWebsiteSteps : List WorkflowStep :=
  [checkoutVersionsStep, installUvStep, syncReleaseBranchStep, setUpPythonStep,
   installLatestGpytorchStep, installDependenciesStep,
   deleteSimilarVersionsWorkflowStep, createDocusaurusVersionStep,
   buildWebsiteScriptStep, uploadArtifactStep]

/-- `if:` condition of the `deploy-website` job: `${{ !inputs.dry_run }}`
(the job also `needs: build-website`). -/
def deployWebsiteJobCondition (i : PublishWebsiteInputs) : Bool :=
  !i.dry_run

/-! ## Publish Website: the `Delete existing similar versions` script -/

/-- Whether one entry of `versions.json` is deleted by
`sed -i "/\"$OLD_VERSION\"/d" website/versions.json`: the version is spliced
into the pattern without escaping, so each `'.'` of the version acts as the
BRE wildcard `.` (any character).  For a quote-free entry, the rendered line
`"entry"` contains a match of the quoted pattern exactly when the entry has
the pattern's length and agrees with it at every position where the pattern
is not a dot. -/
def sedDotMatch (pat entry : List Char) : Bool :=
  pat.length == entry.length &&
    (List.zip pat entry).all (fun pc => pc.1 == '.' || pc.1 == pc.2)

/-- The Docusaurus versioned artifacts living on the `docusaurus-versions`
branch: the version strings that have a `website/versioned_docs/version-v/`
directory, those that have a `website/versioned_sidebars/version-v-sidebars.json`
file, and the entries of `website/versions.json`, one per line. -/
structure DocusaurusState where
  versionedDocs : List (List Char)
  versionedSidebars : List (List Char)
  versionsJson : List (List Char)
deriving Repr, DecidableEq

/-- One iteration of the deletion loop, for a matched directory of version
`v`: `rm -rf` the directory, `rm` the sidebar file, and `sed`-delete the
matching lines of `versions.json`. -/
def deleteOneVersion (st : DocusaurusState) (v : List Char) : DocusaurusState :=
  { versionedDocs := st.versionedDocs.filter (fun d => !(d == v)),
    versionedSidebars := st.versionedSidebars.filter (fun d => !(d == v)),
    versionsJson := st.versionsJson.filter (fun e => !sedDotMatch v e) }

/-- The `Delete existing similar versions from Docusaurus` script: compute
`MAJOR_MINOR_VERSION` from `new_version` (`cut -d '.' -f 1-2`, `${var#v}`),
expand the glob `website/versioned_docs/version-$MAJOR_MINOR_VERSION.*`
(the directories of versions having `MAJOR_MINOR.` as a prefix), and delete
each matched version from the three locations. -/
def deleteSimilarVersionsScript (new_version : List Char) (st : DocusaurusState) :
    DocusaurusState :=
  let mm := stripLeadingV (cutFields12 new_version)
  let matched := st.versionedDocs.filter (fun v => (mm ++ ['.']).isPrefixOf v)
  matched.foldl deleteOneVersion st

/-! ## Deploy On Release: job graph -/

/-- The four jobs of the `Deploy On Release` workflow. -/
inductive ReleaseJob
  | testsAndCoverage
  | packageDeployPypi
  | checkVersions
  | versionAndPublishWebsite
deriving DecidableEq, Repr

/-- The `needs:` edges of the `Deploy On Release` workflow, as written. -/
def jobNeeds : ReleaseJob → List ReleaseJob
  | .testsAndCoverage => []
  | .packageDeployPypi => [.testsAndCoverage]
  | .checkVersions => [.packageDeployPypi]
  | .versionAndPublishWebsite => [.checkVersions]

/-- An execution of the `Deploy On Release` workflow: which jobs ran, which
succeeded, and the `major_minor_changed` output of `check-versions` (unset
while the job has not written it). -/
structure ReleaseRun where
  runs : ReleaseJob → Bool
  success : ReleaseJob → Bool
  majorMinorChangedOutput : Option (List Char)

/-- The `if:` condition of each job.  Only `version-and-publish-website` has
one: `needs.check-versions.outputs.major_minor_changed == 'true'`, where an
unset output reads as the empty string. -/
def releaseJobCondition (e : ReleaseRun) : ReleaseJob → Bool
  | .versionAndPublishWebsite => e.majorMinorChangedOutput.getD [] == "true".data
  | _ => true

/-- GitHub Actions scheduling semantics for this workflow: a job runs only if
every job in its `needs:` list ran and succeeded and its `if:` condition
holds, and only jobs that ran can have succeeded. -/
def validReleaseRun (e : ReleaseRun) : Prop :=
  (∀ j, e.runs j = true →
    (∀ p ∈ jobNeeds j, e.runs p = true ∧ e.success p = true) ∧
    releaseJobCondition e j = true) ∧
  (∀ j, e.success j = true → e.runs j = true)

/-- The release run in which every job runs and succeeds and `check-versions`
reports a major/minor change. -/
def allRunRelease : ReleaseRun :=
  { runs := fun _ => true, success := fun _ => true,
    majorMinorChangedOutput := some "true".data }

/-- The release run in which the tests succeed, the PyPI job runs but fails,
and nothing downstream runs. -/
def pypiFailedRelease : ReleaseRun :=
  { runs := fun j => j = .testsAndCoverage ∨ j = .packageDeployPypi,
    success := fun j => j = .testsAndCoverage,
    majorMinorChangedOutput := none }

/-! ## Deploy On Release: steps and default failure semantics -/

/-- One step of a job in `Deploy On Release`: its name and its
`continue-on-error:` setting (the key is absent from every step of the
workflow, so the platform default `false` applies). -/
structure JobStep where
  name : String
  continueOnError : Bool
deriving DecidableEq, Repr

/-- The steps of the `package-deploy-pypi` job, in workflow order. -/
def packageDeployPypiSteps : List JobStep :=
  [{ name := "checkout", continueOnError := false },
   { name := "Install uv", continueOnError := false },
   { name := "Fetch all history for all tags and branches", continueOnError := false },
   { name := "Set up Python", continueOnError := false },
   { name := "Install dependencies", continueOnError := false },
   { name := "Build packages (wheel and source distribution)", continueOnError := false },
   { name := "Verify packages", continueOnError := false },
   { name := "Deploy to PyPI", continueOnError := false }]

/-- The steps of the `check-versions` job, in workflow order. -/
def checkVersionsJobSteps : List JobStep :=
  [{ name := "checkout", continueOnError := false },
   { name := "Check if major or minor version changed", continueOnError := false }]

/-- GitHub Actions default step semantics: steps execute in order and a
failing step aborts the job unless it sets `continue-on-error`.  `res i`
says whether the `i`-th step (counting from `k`) succeeds; the result is
whether the job as a whole succeeds. -/
def runJobSteps : List JobStep → (Nat → Bool) → Nat → Bool
  | [], _, _ => true
  | s :: rest, res, i =>
    if res i then runJobSteps rest res (i + 1)
    else if s.continueOnError then runJobSteps rest res (i + 1)
    else false

/-! ## The discrete-fidelity knowledge-gradient tutorial notebook

Tensors are modelled as lists of rows, each row a `List ℚ`.  The external
library's numerical routines (the acquisition optimizers and the Hartmann
test function) are abstracted as oracle parameters; what the notebook itself
fixes — dimensions, the fidelity values, the cost model parameters, the
fixed-feature lists, the batch size, the smoke-test switches — is embedded
literally. -/

/-- A candidate point: one row of a tensor. -/
abbrev Vec := List ℚ

/-- Python truthiness of `os.environ.get("SMOKE_TEST")`: `None` (unset) and
the empty string are falsy, any other string is truthy. -/
def smokeTruthy : Option String → Bool
  | none => false
  | some s => s != ""

/-- `num_restarts=10 if not SMOKE_TEST else 2` in `get_mfkg`. -/
def get_mfkg_num_restarts (smoke : Option String) : Nat :=
  if !smokeTruthy smoke then 10 else 2

/-- `raw_samples=1024 if not SMOKE_TEST else 4` in `get_mfkg`. -/
def get_mfkg_raw_samples (smoke : Option String) : Nat :=
  if !smokeTruthy smoke then 1024 else 4

/-- `num_fantasies=128 if not SMOKE_TEST else 2` in `get_mfkg`. -/
def get_mfkg_num_fantasies (smoke : Option String) : Nat :=
  if !smokeTruthy smoke then 128 else 2

/-- `N_ITER = 3 if not SMOKE_TEST else 1` (the outer BO loop). -/
def N_ITER (smoke : Option String) : Nat :=
  if !smokeTruthy smoke then 3 else 1

/-- `NUM_RESTARTS = 5 if not SMOKE_TEST else 2`. -/
def NUM_RESTARTS (smoke : Option String) : Nat :=
  if !smokeTruthy smoke then 5 else 2

/-- `RAW_SAMPLES = 128 if not SMOKE_TEST else 4`. -/
def RAW_SAMPLES (smoke : Option String) : Nat :=
  if !smokeTruthy smoke then 128 else 4

/-- `BATCH_SIZE = 4` (independent of the smoke-test flag). -/
def BATCH_SIZE : Nat := 4

/-- `fidelities = torch.tensor([0.5, 0.75, 1.0])`. -/
def fidelities : List ℚ := [1/2, 3/4, 1]

/-- `generate_initial_data(n)`: `train_x = torch.rand(n, 6)` (rows of the
oracle `rand`), `train_f = fidelities[torch.randint(3, (n, 1))]` (indices
from the oracle `randi`), `train_x_full = cat((train_x, train_f), dim=1)`,
`train_obj = problem(train_x_full).unsqueeze(-1)`. -/
def generate_initial_data (rand : Nat → Nat → ℚ) (randi : Nat → Fin 3)
    (problem : Vec → ℚ) (n : Nat) : List Vec × List Vec :=
  let train_x := (List.range n).map (fun i => (List.range 6).map (fun j => rand i j))
  let train_f := (List.range n).map (fun i => [fidelities.getD (randi i).1 0])
  let train_x_full := List.zipWith (· ++ ·) train_x train_f
  let train_obj := train_x_full.map (fun r => [problem r])
  (train_x_full, train_obj)

/-- `fixed_features_list=[{6: 0.5}, {6: 0.75}, {6: 1.0}]` passed to
`optimize_acqf_mixed` in `optimize_mfkg_and_get_observation`. -/
def mixed_fixed_features_list : List (List (Nat × ℚ)) :=
  [[(6, 1/2)], [(6, 3/4)], [(6, 1)]]

/-- Modelled from the spec: `optimize_acqf_mixed` (an external acquisition
optimizer, not part of the repository sources) "sequentially optimizes the
acquisition function over `x` for each value of the fidelity" and returns a
batch of `q` candidates; the `i`-th candidate is the continuous optimizer's
point (`base i`, a point of the `bounds` box) with the fixed features of the
chosen element of `fixed_features_list` written into it. -/
def optimize_acqf_mixed (ffl : List (List (Nat × ℚ))) (q : Nat)
    (base : Nat → Vec) (choose : Nat → Fin ffl.length) : List Vec :=
  (List.range q).map (fun i =>
    (ffl.get (choose i)).foldl (fun x jv => x.set jv.1 jv.2) (base i))

/-- Modelled from the spec: `AffineFidelityCostModel(fidelity_weights, fixed_cost)`
(an external cost model, not part of the repository sources) prices a
candidate as the fixed cost plus the weighted sum of its fidelity
coordinates. -/
def affineFidelityCostModel (fidelity_weights : List (Nat × ℚ)) (fixed_cost : ℚ)
    (x : Vec) : ℚ :=
  fixed_cost + (fidelity_weights.map (fun iw => iw.2 * x.getD iw.1 0)).sum

/-- `cost_model = AffineFidelityCostModel(fidelity_weights={6: 1.0}, fixed_cost=0.25)`. -/
def cost_model : Vec → ℚ :=
  affineFidelityCostModel [(6, 1)] (1/4)

/-- `optimize_mfkg_and_get_observation` with its library calls made explicit:
`optimizeResult` is the outcome of the `optimize_acqf_mixed` call and
`problemBatch` the evaluation `problem(new_x)`; either may raise, and the
helper authors no handling (`Except` models Python exceptions).  On success
it returns `(new_x, new_obj, cost)` with `cost = cost_model(candidates).sum()`
and `new_obj = problem(new_x).unsqueeze(-1)`. -/
def optimize_mfkg_and_get_observation (E : Type) (optimizeResult : Except E (List Vec))
    (problemBatch : List Vec → Except E (List ℚ)) :
    Except E (List Vec × List Vec × ℚ) :=
  Except.bind optimizeResult (fun candidates =>
    let cost := (candidates.map cost_model).sum
    let new_x := candidates
    Except.bind (problemBatch new_x) (fun objs =>
      let new_obj := objs.map (fun v => [v])
      Except.ok (new_x, new_obj, cost)))

/-- One iteration of the notebook's BO loop: fit a fresh model on all data
(the fit only influences the optimizer oracles `base`/`choose`), take
`BATCH_SIZE` new candidates from `optimize_acqf_mixed`, observe them, and
append both to the training data. -/
def bo_iteration (problem : Vec → ℚ) (base : Nat → Vec)
    (choose : Nat → Fin mixed_fixed_features_list.length)
    (st : List Vec × List Vec) : List Vec × List Vec :=
  let new_x := optimize_acqf_mixed mixed_fixed_features_list BATCH_SIZE base choose
  let new_obj := new_x.map (fun r => [problem r])
  (st.1 ++ new_x, st.2 ++ new_obj)

/-- The notebook's BO loop after `i` iterations, starting from `init`; each
iteration gets its own optimizer oracles (the model is refit each time). -/
def bo_loop (problem : Vec → ℚ)
    (oracles : Nat → (Nat → Vec) × (Nat → Fin mixed_fixed_features_list.length))
    (init : List Vec × List Vec) : Nat → List Vec × List Vec
  | 0 => init
  | i + 1 => bo_iteration problem (oracles i).1 (oracles i).2
      (bo_loop problem oracles init i)

/-- Modelled from the spec:
`FixedFeatureAcquisitionFunction._construct_X_full` (external, not part of
the repository sources) re-inserts the fixed columns into a point over the
non-fixed dimensions, producing a `d`-dimensional point: position `j` takes
the fixed value when `j` is a fixed column and otherwise consumes the next
coordinate of the input point. -/
def construct_X_full_positions : List Nat → List (Nat × ℚ) → Vec → Vec
  | [], _, _ => []
  | j :: js, fixedCols, x =>
    match fixedCols.lookup j with
    | some v => v :: construct_X_full_positions js fixedCols x
    | none =>
      match x with
      | [] => construct_X_full_positions js fixedCols []
      | a :: rest => a :: construct_X_full_positions js fixedCols rest

/-- `_construct_X_full` for `d` dimensions with the given fixed `columns`
and `values`. -/
def construct_X_full (d : Nat) (columns : List Nat) (values : List ℚ) (x : Vec) : Vec :=
  construct_X_full_positions (List.range d) (columns.zip values) x

/-- `get_recommendation`: optimize the posterior mean over the six design
dimensions (`bounds[:, :-1]`; the numeric optimum is the oracle argument),
then re-insert the fidelity column with
`FixedFeatureAcquisitionFunction(..., d=7, columns=[6], values=[1])`. -/
def get_recommendation (acqfOptimum : Vec) : Vec :=
  construct_X_full 7 [6] [1] acqfOptimum

/-! # Part 2: theorems -/

/-- C1: the `check-versions` job sets `major_minor_changed` to `'true'`
exactly when the two tags, reduced by keeping the first two dot-separated
fields and removing an optional leading `v`, differ as strings; when the
reduced strings are equal the output stays unset and only a warning is
emitted. -/
theorem C1_check_versions_output (p r : List Char) :
    ((checkVersionsCompare p r).major_minor_changed = some "true".data ↔
      reducedTag p ≠ reducedTag r) ∧
    (reducedTag p = reducedTag r →
      (checkVersionsCompare p r).major_minor_changed = none ∧
      (checkVersionsCompare p r).warned = true) := by
  unfold checkVersionsCompare reducedTag
  by_cases h : stripLeadingV (cutFields12 p) = stripLeadingV (cutFields12 r) <;>
    simp [h]

/-- Concrete instantiation of `C1_check_versions_output`: updating from
`v0.12.1` to `v0.12.2` keeps the same major.minor, so the output is unset;
the reductions of `v0.12.1` and `v0.13.0` differ, so there the output is
`'true'`. -/
theorem C1_check_versions_output_witness :
    ((checkVersionsCompare "v0.12.1".data "v0.12.2".data).major_minor_changed = none ∧
      (checkVersionsCompare "v0.12.1".data "v0.12.2".data).warned = true) ∧
    (checkVersionsCompare "v0.12.1".data "v0.13.0".data).major_minor_changed =
      some "true".data :=
  ⟨(C1_check_versions_output "v0.12.1".data "v0.12.2".data).2 (by decide),
   (C1_check_versions_output "v0.12.1".data "v0.13.0".data).1.mpr (by decide)⟩

/-- C2: with `dry_run` true, the `Create new docusaurus version` step — the
only step of the workflow whose script pushes to the `docusaurus-versions`
branch — never runs, and the `deploy-website` job never runs, so a dry run
deploys nothing; moreover the step only runs when `new_version` is
non-empty. -/
theorem C2_dry_run_deploys_nothing :
    (∀ i : PublishWebsiteInputs, i.dry_run = true →
      createDocusaurusVersionStep.condition i = false ∧
      deployWebsiteJobCondition i = false) ∧
    (∀ s ∈ buildWebsiteSteps, s.pushesToDocusaurusVersions = true →
      s.name = "Create new docusaurus version") ∧
    (∀ i : PublishWebsiteInputs, createDocusaurusVersionStep.condition i = true →
      i.new_version ≠ []) := by
  refine ⟨?_, ?_, ?_⟩
  · intro i h
    simp [createDocusaurusVersionStep, deployWebsiteJobCondition, h]
  · intro s hs hp
    simp only [buildWebsiteSteps, List.mem_cons, List.not_mem_nil, or_false] at hs
    rcases hs with h | h | h | h | h | h | h | h | h | h <;> subst h <;>
      first
        | rfl
        | exact absurd hp (by simp [checkoutVersionsStep, installUvStep,
            syncReleaseBranchStep, setUpPythonStep, installLatestGpytorchStep,
            installDependenciesStep, deleteSimilarVersionsWorkflowStep,
            buildWebsiteScriptStep, uploadArtifactStep])
  · intro i h
    cases hnv : i.new_version with
    | nil => simp [createDocusaurusVersionStep, ghaTruthy, hnv] at h
    | cons c cs => simp [hnv]

/-- Concrete instantiation of `C2_dry_run_deploys_nothing`: with
`new_version = "1.2.3"` and `dry_run = true` neither the version-creation
step nor the deploy job runs; when the step does run (`dry_run = false`),
`new_version` is non-empty; and the version-creation step is the pushing
step. -/
theorem C2_dry_run_deploys_nothing_witness :
    (createDocusaurusVersionStep.condition ⟨"1.2.3".data, false, true⟩ = false ∧
      deployWebsiteJobCondition ⟨"1.2.3".data, false, true⟩ = false) ∧
    ("1.2.3".data ≠ ([] : List Char)) ∧
    createDocusaurusVersionStep.name = "Create new docusaurus version" :=
  ⟨C2_dry_run_deploys_nothing.1 ⟨"1.2.3".data, false, true⟩ rfl,
   C2_dry_run_deploys_nothing.2.2 ⟨"1.2.3".data, false, false⟩ (by decide),
   C2_dry_run_deploys_nothing.2.1 createDocusaurusVersionStep
     (List.Mem.tail _ (List.Mem.tail _ (List.Mem.tail _ (List.Mem.tail _
       (List.Mem.tail _ (List.Mem.tail _ (List.Mem.tail _ (List.Mem.head _))))))))
     rfl⟩

/-- C10: the deletion step is claimed to leave every `versions.json` entry
of a different major.minor untouched, but the unescaped dots of the deleted
version act as regex wildcards in the `sed` pattern.  Releasing `0.1.2`
over a state with docs for `0.1.2` and `versions.json` entries `0.1.2` and
`0.102` deletes both entries, although `0.102` reduces to major.minor
`0.102 ≠ 0.1` — contradicting both the claim and the script's own comment
that only versions "for same Major and Minor version numbers" are removed. -/
theorem C10_sed_wildcard_counterexample :
    (deleteSimilarVersionsScript "0.1.2".data
      { versionedDocs := ["0.1.2".data],
        versionedSidebars := ["0.1.2".data],
        versionsJson := ["0.1.2".data, "0.102".data] }).versionsJson = [] ∧
    reducedTag "0.102".data ≠ reducedTag "0.1.2".data := by
  decide

/-- C3: under the `needs:`-based scheduling semantics, `package-deploy-pypi`
runs only after `tests-and-coverage` succeeded, `check-versions` only after
`package-deploy-pypi` succeeded, and `version-and-publish-website` only
after `check-versions` succeeded with `major_minor_changed` equal to the
string `'true'`; `needs:` edges are exactly the ones written in the
workflow, so the package (published by a step of `package-deploy-pypi`) is
never deployed unless the test job succeeded first. -/
theorem C3_job_ordering :
    jobNeeds .packageDeployPypi = [.testsAndCoverage] ∧
    jobNeeds .checkVersions = [.packageDeployPypi] ∧
    jobNeeds .versionAndPublishWebsite = [.checkVersions] ∧
    ∀ e : ReleaseRun, validReleaseRun e →
      (e.runs .packageDeployPypi = true → e.success .testsAndCoverage = true) ∧
      (e.runs .checkVersions = true → e.success .packageDeployPypi = true) ∧
      (e.runs .versionAndPublishWebsite = true →
        e.success .checkVersions = true ∧
        e.majorMinorChangedOutput.getD [] = "true".data) := by
  refine ⟨rfl, rfl, rfl, ?_⟩
  intro e he
  refine ⟨?_, ?_, ?_⟩
  · intro h
    exact ((he.1 _ h).1 _ (by simp [jobNeeds])).2
  · intro h
    exact ((he.1 _ h).1 _ (by simp [jobNeeds])).2
  · intro h
    refine ⟨((he.1 _ h).1 _ (by simp [jobNeeds])).2, ?_⟩
    have hc := (he.1 _ h).2
    simpa [releaseJobCondition] using hc

/-- Concrete instantiation of `C3_job_ordering` on the run in which every
job runs and succeeds with `major_minor_changed = 'true'`. -/
theorem C3_job_ordering_witness :
    allRunRelease.success ReleaseJob.testsAndCoverage = true ∧
    allRunRelease.success ReleaseJob.checkVersions = true ∧
    allRunRelease.majorMinorChangedOutput.getD [] = "true".data :=
  have hv : validReleaseRun allRunRelease :=
    ⟨by intro j hj; cases j <;> simp [allRunRelease, jobNeeds, releaseJobCondition],
     by intro j hj; rfl⟩
  ⟨(C3_job_ordering.2.2.2 allRunRelease hv).1 rfl,
   ((C3_job_ordering.2.2.2 allRunRelease hv).2.2 rfl).1,
   ((C3_job_ordering.2.2.2 allRunRelease hv).2.2 rfl).2⟩

/-- C4: the `SMOKE_TEST` environment flag (truthy exactly when set to a
non-empty string) selects the reduced parameters `num_restarts=2`,
`raw_samples=4`, `num_fantasies=2`, `N_ITER=1`, `NUM_RESTARTS=2`,
`RAW_SAMPLES=4`, and otherwise `10`, `1024`, `128`, `3`, `5`, `128`; every
other embedded parameter of the notebook (e.g. `BATCH_SIZE`) is a constant
that does not take the flag. -/
theorem C4_smoke_test_parameters (env : Option String) :
    (smokeTruthy env = true →
      get_mfkg_num_restarts env = 2 ∧ get_mfkg_raw_samples env = 4 ∧
      get_mfkg_num_fantasies env = 2 ∧ N_ITER env = 1 ∧
      NUM_RESTARTS env = 2 ∧ RAW_SAMPLES env = 4) ∧
    (smokeTruthy env = false →
      get_mfkg_num_restarts env = 10 ∧ get_mfkg_raw_samples env = 1024 ∧
      get_mfkg_num_fantasies env = 128 ∧ N_ITER env = 3 ∧
      NUM_RESTARTS env = 5 ∧ RAW_SAMPLES env = 128) ∧
    BATCH_SIZE = 4 := by
  refine ⟨?_, ?_, rfl⟩ <;> intro h <;>
    simp [get_mfkg_num_restarts, get_mfkg_raw_samples, get_mfkg_num_fantasies,
      N_ITER, NUM_RESTARTS, RAW_SAMPLES, h]

/-- Concrete instantiation of `C4_smoke_test_parameters` at
`SMOKE_TEST="1"` (smoke) and at the unset variable (full run). -/
theorem C4_smoke_test_parameters_witness :
    (get_mfkg_num_restarts (some "1") = 2 ∧ get_mfkg_raw_samples (some "1") = 4 ∧
      get_mfkg_num_fantasies (some "1") = 2 ∧ N_ITER (some "1") = 1 ∧
      NUM_RESTARTS (some "1") = 2 ∧ RAW_SAMPLES (some "1") = 4) ∧
    (get_mfkg_num_restarts none = 10 ∧ get_mfkg_raw_samples none = 1024 ∧
      get_mfkg_num_fantasies none = 128 ∧ N_ITER none = 3 ∧
      NUM_RESTARTS none = 5 ∧ RAW_SAMPLES none = 128) :=
  ⟨(C4_smoke_test_parameters (some "1")).1 (by decide),
   (C4_smoke_test_parameters none).2.1 rfl⟩

/-- Helper: `optimize_acqf_mixed` returns exactly `q` candidates. -/
theorem optimize_acqf_mixed_length (ffl : List (List (Nat × ℚ))) (q : Nat)
    (base : Nat → Vec) (choose : Nat → Fin ffl.length) :
    (optimize_acqf_mixed ffl q base choose).length = q := by
  simp [optimize_acqf_mixed]

/-- Helper: `generate_initial_data` returns `n` rows of inputs and `n` rows
of observations. -/
theorem generate_initial_data_lengths (rand : Nat → Nat → ℚ) (randi : Nat → Fin 3)
    (problem : Vec → ℚ) (n : Nat) :
    (generate_initial_data rand randi problem n).1.length = n ∧
    (generate_initial_data rand randi problem n).2.length = n := by
  simp [generate_initial_data]

/-- Helper: each iteration of the BO loop appends `BATCH_SIZE` rows to both
tensors. -/
theorem bo_iteration_lengths (problem : Vec → ℚ) (base : Nat → Vec)
    (choose : Nat → Fin mixed_fixed_features_list.length) (st : List Vec × List Vec) :
    (bo_iteration problem base choose st).1.length = st.1.length + BATCH_SIZE ∧
    (bo_iteration problem base choose st).2.length = st.2.length + BATCH_SIZE := by
  simp [bo_iteration, optimize_acqf_mixed_length]

/-- C5: the tutorial's BO loop starts from `generate_initial_data(n=16)` —
16 rows of width 7 and 16 observations of width 1 — and each iteration
appends exactly `BATCH_SIZE = 4` rows to both tensors, so after `i`
iterations `train_x` has `16 + 4*i` rows and `train_x` and `train_obj`
always have equally many rows. -/
theorem C5_bo_loop_row_counts (rand : Nat → Nat → ℚ) (randi : Nat → Fin 3)
    (problem : Vec → ℚ)
    (oracles : Nat → (Nat → Vec) × (Nat → Fin mixed_fixed_features_list.length)) :
    (generate_initial_data rand randi problem 16).1.length = 16 ∧
    ((generate_initial_data rand randi problem 16).1.all
      (fun r => r.length == 7)) = true ∧
    (generate_initial_data rand randi problem 16).2.length = 16 ∧
    ((generate_initial_data rand randi problem 16).2.all
      (fun r => r.length == 1)) = true ∧
    ∀ i : Nat,
      (bo_loop problem oracles (generate_initial_data rand randi problem 16) i).1.length
          = 16 + 4 * i ∧
      (bo_loop problem oracles (generate_initial_data rand randi problem 16) i).1.length
          = (bo_loop problem oracles (generate_initial_data rand randi problem 16) i).2.length := by
  refine ⟨(generate_initial_data_lengths rand randi problem 16).1, ?_,
    (generate_initial_data_lengths rand randi problem 16).2, ?_, ?_⟩
  · simp only [generate_initial_data, List.all_eq_true]
    intro r hr
    rw [List.mem_iff_get] at hr
    obtain ⟨k, hk⟩ := hr
    subst hk
    simp [List.getElem_zipWith]
  · simp only [generate_initial_data, List.all_eq_true]
    intro r hr
    simp only [List.mem_map] at hr
    obtain ⟨t, _, hteq⟩ := hr
    subst hteq
    simp
  · intro i
    induction i with
    | zero =>
      simp [bo_loop, (generate_initial_data_lengths rand randi problem 16).1,
        (generate_initial_data_lengths rand randi problem 16).2]
    | succ n ihn =>
      have h1 := (bo_iteration_lengths problem (oracles n).1 (oracles n).2
        (bo_loop problem oracles (generate_initial_data rand randi problem 16) n)).1
      have h2 := (bo_iteration_lengths problem (oracles n).1 (oracles n).2
        (bo_loop problem oracles (generate_initial_data rand randi problem 16) n)).2
      constructor
      · rw [bo_loop, h1, ihn.1]
        simp [BATCH_SIZE]
        ring
      · rw [bo_loop, h1, h2, ihn.2]

/-- Helper: the per-candidate price of the tutorial's cost model. -/
theorem cost_model_apply (x : Vec) : cost_model x = 1/4 + x.getD 6 0 := by
  simp [cost_model, affineFidelityCostModel]

/-- Helper: `cost_model(candidates).sum()` over a batch. -/
theorem cost_model_batch_sum (rows : List Vec) :
    (rows.map cost_model).sum =
      (1/4 : ℚ) * rows.length + (rows.map (fun r => r.getD 6 0)).sum := by
  induction rows with
  | nil => simp
  | cons r t ih =>
    simp only [List.map_cons, List.sum_cons, ih, cost_model_apply, List.length_cons]
    push_cast
    ring

/-- C6: under the affine cost model with fidelity weight `1.0` on column 6
and fixed cost `0.25`, a single candidate `x` costs `0.25 + x[6]`, and the
cost returned by `optimize_mfkg_and_get_observation` for a batch of `q`
candidates is `0.25*q` plus the sum of the batch's fidelity values. -/
theorem C6_affine_evaluation_cost :
    (∀ x : Vec, cost_model x = 1/4 + x.getD 6 0) ∧
    ∀ (E : Type) (cands : List Vec) (problemBatch : List Vec → Except E (List ℚ))
      (r : List Vec × List Vec × ℚ),
      optimize_mfkg_and_get_observation E (Except.ok cands) problemBatch = Except.ok r →
      r.2.2 = (1/4 : ℚ) * cands.length + (cands.map (fun x => x.getD 6 0)).sum := by
  refine ⟨cost_model_apply, ?_⟩
  intro E cands problemBatch r h
  simp only [optimize_mfkg_and_get_observation, Except.bind] at h
  cases hp : problemBatch cands with
  | error e => rw [hp] at h; cases h
  | ok objs =>
    rw [hp] at h
    cases h
    exact cost_model_batch_sum cands

/-- Concrete instantiation of `C6_affine_evaluation_cost`: a batch holding
the single candidate `[0,0,0,0,0,0,1/2]` (fidelity `0.5`) is billed
`0.25*1 + 0.5`. -/
theorem C6_affine_evaluation_cost_witness :
    ([([0, 0, 0, 0, 0, 0, 1/2] : Vec)].map cost_model).sum =
      (1/4 : ℚ) * (([([0, 0, 0, 0, 0, 0, 1/2] : Vec)] : List Vec).length) +
        (([([0, 0, 0, 0, 0, 0, 1/2] : Vec)] : List Vec).map (fun x => x.getD 6 0)).sum :=
  C6_affine_evaluation_cost.2 Unit [[0, 0, 0, 0, 0, 0, 1/2]]
    (fun _ => Except.ok [0])
    ([[0, 0, 0, 0, 0, 0, 1/2]], [[0]], ([([0, 0, 0, 0, 0, 0, 1/2] : Vec)].map cost_model).sum)
    rfl

/-- Helper: reading back the coordinate just written by `List.set`. -/
theorem getD_set_eq (l : List ℚ) :
    ∀ i : Nat, i < l.length → ∀ v : ℚ, (l.set i v).getD i 0 = v := by
  induction l with
  | nil => intro i hi; simp at hi
  | cons a t ih =>
    intro i hi v
    cases i with
    | zero => rfl
    | succ n => simpa using ih n (by simpa using hi) v

/-- C8: every candidate produced by `optimize_acqf_mixed` with
`fixed_features_list=[{6: 0.5}, {6: 0.75}, {6: 1.0}]` over the 7-dimensional
box has its fidelity coordinate (index 6) equal to `0.5`, `0.75` or `1.0`. -/
theorem C8_candidate_fidelities (q : Nat) (base : Nat → Vec)
    (choose : Nat → Fin mixed_fixed_features_list.length)
    (hb : ∀ i, (base i).length = 7) :
    ∀ row ∈ optimize_acqf_mixed mixed_fixed_features_list q base choose,
      row.getD 6 0 = 1/2 ∨ row.getD 6 0 = 3/4 ∨ row.getD 6 0 = 1 := by
  intro row hrow
  simp only [optimize_acqf_mixed, List.mem_map, List.mem_range] at hrow
  obtain ⟨i, _, rfl⟩ := hrow
  have h6 : 6 < (base i).length := by rw [hb i]; omega
  rcases choose i with ⟨cv, hcv⟩
  have hcv3 : cv < 3 := by simpa [mixed_fixed_features_list] using hcv
  interval_cases cv
  · exact Or.inl (getD_set_eq (base i) 6 h6 (1/2))
  · exact Or.inr (Or.inl (getD_set_eq (base i) 6 h6 (3/4)))
  · exact Or.inr (Or.inr (getD_set_eq (base i) 6 h6 1))

/-- Concrete instantiation of `C8_candidate_fidelities`: the single
candidate generated from the all-zero base point with the first fixed
feature has fidelity coordinate `0.5`. -/
theorem C8_candidate_fidelities_witness :
    ([0, 0, 0, 0, 0, 0, 1/2] : Vec).getD 6 0 = 1/2 ∨
    ([0, 0, 0, 0, 0, 0, 1/2] : Vec).getD 6 0 = 3/4 ∨
    ([0, 0, 0, 0, 0, 0, 1/2] : Vec).getD 6 0 = 1 :=
  C8_candidate_fidelities 1 (fun _ => List.replicate 7 0) (fun _ => ⟨0, by decide⟩)
    (fun _ => rfl) [0, 0, 0, 0, 0, 0, 1/2] (List.Mem.head _)

/-- C9: `get_recommendation` optimizes over the six design dimensions only
and re-inserts the fixed fidelity column, so the recommended point is the
6-dimensional optimum with `1.0` appended, and its fidelity coordinate
(index 6) is the target fidelity `1.0`. -/
theorem C9_recommendation_at_target_fidelity (x : Vec) (h : x.length = 6) :
    get_recommendation x = x ++ [1] ∧ (get_recommendation x).getD 6 0 = 1 := by
  rcases x with _ | ⟨a, x⟩
  · simp at h
  rcases x with _ | ⟨b, x⟩
  · simp at h
  rcases x with _ | ⟨c, x⟩
  · simp at h
  rcases x with _ | ⟨d, x⟩
  · simp at h
  rcases x with _ | ⟨e, x⟩
  · simp at h
  rcases x with _ | ⟨f, x⟩
  · simp at h
  rcases x with _ | ⟨g, x⟩
  · exact ⟨rfl, rfl⟩
  · simp at h

/-- Concrete instantiation of `C9_recommendation_at_target_fidelity` at the
origin of the design box. -/
theorem C9_recommendation_at_target_fidelity_witness :
    get_recommendation [0, 0, 0, 0, 0, 0] = [0, 0, 0, 0, 0, 0] ++ [1] ∧
    (get_recommendation [0, 0, 0, 0, 0, 0]).getD 6 0 = 1 :=
  C9_recommendation_at_target_fidelity [0, 0, 0, 0, 0, 0] rfl

/-- Helper: in a job none of whose steps sets `continue-on-error`, job
success forces every step to have succeeded. -/
theorem runJobSteps_all_success (steps : List JobStep) (res : Nat → Bool) :
    ∀ k : Nat, (∀ s ∈ steps, s.continueOnError = false) →
      runJobSteps steps res k = true → ∀ i < steps.length, res (k + i) = true := by
  induction steps with
  | nil => intro k _ _ i hi; simp at hi
  | cons s rest ih =>
    intro k hc h i hi
    rw [runJobSteps] at h
    cases hres : res k with
    | false =>
      rw [hres, hc s (List.mem_cons_self s rest)] at h
      simp at h
    | true =>
      rw [hres] at h
      simp only [if_true] at h
      cases i with
      | zero => simpa using hres
      | succ n =>
        have hn := ih (k + 1) (fun t ht => hc t (List.mem_cons_of_mem s ht)) h n
          (by simpa using Nat.lt_of_succ_lt_succ hi)
        have harg : k + 1 + n = k + (n + 1) := by omega
        rw [harg] at hn
        exact hn

/-- C7: no error handling is authored anywhere.  In the notebook helper
`optimize_mfkg_and_get_observation` an exception raised by either library
call (the acquisition optimization or the objective evaluation) propagates
to the caller unchanged; in `Deploy On Release` no step sets
`continue-on-error`, so under the default semantics a job succeeds only if
every one of its steps did, and a failed `package-deploy-pypi` prevents
`check-versions` and `version-and-publish-website` from running at all. -/
theorem C7_no_error_handling :
    (∀ (E : Type) (e : E) (problemBatch : List Vec → Except E (List ℚ)),
      optimize_mfkg_and_get_observation E (Except.error e) problemBatch =
        Except.error e) ∧
    (∀ (E : Type) (cands : List Vec) (e : E),
      optimize_mfkg_and_get_observation E (Except.ok cands) (fun _ => Except.error e) =
        Except.error e) ∧
    (∀ s ∈ packageDeployPypiSteps ++ checkVersionsJobSteps,
      s.continueOnError = false) ∧
    (∀ res : Nat → Bool, runJobSteps packageDeployPypiSteps res 0 = true →
      ∀ i < packageDeployPypiSteps.length, res i = true) ∧
    (∀ e : ReleaseRun, validReleaseRun e →
      e.success .packageDeployPypi = false →
      e.runs .checkVersions = false ∧ e.runs .versionAndPublishWebsite = false) := by
  refine ⟨fun E e pb => rfl, fun E cands e => rfl, by decide, ?_, ?_⟩
  · intro res h i hi
    have := runJobSteps_all_success packageDeployPypiSteps res 0 (by decide) h i hi
    simpa using this
  · intro e he hf
    have hcv : e.runs .checkVersions = false := by
      cases hrc : e.runs ReleaseJob.checkVersions with
      | false => rfl
      | true =>
        have hs := ((he.1 _ hrc).1 ReleaseJob.packageDeployPypi (by simp [jobNeeds])).2
        rw [hf] at hs
        cases hs
    refine ⟨hcv, ?_⟩
    cases hrv : e.runs ReleaseJob.versionAndPublishWebsite with
    | false => rfl
    | true =>
      have hs := ((he.1 _ hrv).1 ReleaseJob.checkVersions (by simp [jobNeeds])).2
      have hr := he.2 ReleaseJob.checkVersions hs
      rw [hcv] at hr
      cases hr

/-- Concrete instantiation of `C7_no_error_handling`: a raised exception
comes straight back out of the helper, an all-successful step vector is the
only way the PyPI job succeeds, and in the run `pypiFailedRelease` (tests
pass, PyPI deployment fails) the two downstream jobs do not run. -/
theorem C7_no_error_handling_witness :
    optimize_mfkg_and_get_observation Unit (Except.error ()) (fun _ => Except.ok []) =
        Except.error () ∧
    optimize_mfkg_and_get_observation Unit (Except.ok []) (fun _ => Except.error ()) =
        Except.error () ∧
    (JobStep.mk "checkout" false).continueOnError = false ∧
    (fun _ : Nat => true) 0 = true ∧
    pypiFailedRelease.runs ReleaseJob.checkVersions = false ∧
    pypiFailedRelease.runs ReleaseJob.versionAndPublishWebsite = false :=
  have hv : validReleaseRun pypiFailedRelease :=
    ⟨by intro j hj; cases j <;>
        simp_all [pypiFailedRelease, jobNeeds, releaseJobCondition],
     by intro j hj; cases j <;> simp_all [pypiFailedRelease]⟩
  ⟨C7_no_error_handling.1 Unit () (fun _ => Except.ok []),
   C7_no_error_handling.2.1 Unit [] (),
   C7_no_error_handling.2.2.1 (JobStep.mk "checkout" false)
     (List.mem_append_left _ (List.Mem.head _)),
   C7_no_error_handling.2.2.2.1 (fun _ => true) rfl 0 (by decide),
   (C7_no_error_handling.2.2.2.2 pypiFailedRelease hv rfl).1,
   (C7_no_error_handling.2.2.2.2 pypiFailedRelease hv rfl).2⟩

end BotorchRepo

